import Mathlib

/-!
Verification of the typed JSON view-model layer of `neuroglancer`
(`src/python/neuroglancer/viewer_state.py`), shallowly embedded in Lean.

Python dictionaries are modelled as insertion-ordered association lists with
unique keys; Python exceptions are modelled by an explicit error type, and a
mutating method is modelled as a function returning the post-state paired with
the optionally raised error (so that partial mutation surviving an exception is
observable, exactly as in Python).
-/

/-- The kinds of Python exceptions raised by the code under study. -/
inductive PyError where
  | valueError
  | typeError
  | keyError
  | attributeError
  deriving DecidableEq, Repr

/-- Lookup in an insertion-ordered dict (`d[k]` / `d.get(k)` returning an option). -/
def dget {κ ν : Type} [DecidableEq κ] : List (κ × ν) → κ → Option ν
  | [], _ => none
  | p :: d, k => if p.1 = k then some p.2 else dget d k

/-- `d[k] = v` on an insertion-ordered dict: replaces the value in place if the
key is present (keeping its position), otherwise appends the new entry. -/
def dset {κ ν : Type} [DecidableEq κ] : List (κ × ν) → κ → ν → List (κ × ν)
  | [], k, v => [(k, v)]
  | p :: d, k, v => if p.1 = k then (k, v) :: d else p :: dset d k v

/-- `d.pop(k, None)` / `del d[k]` on an insertion-ordered dict: removes the
entry for the key, if any (keys are unique in every dict the code builds). -/
def dpop {κ ν : Type} [DecidableEq κ] : List (κ × ν) → κ → List (κ × ν)
  | [], _ => []
  | p :: d, k => if p.1 = k then dpop d k else p :: dpop d k

/-- `d.update(other)`: later entries win, insertion order of fresh keys preserved. -/
def dupdate {κ ν : Type} [DecidableEq κ] (d other : List (κ × ν)) : List (κ × ν) :=
  other.foldl (fun acc p => dset acc p.1 p.2) d

/-- Python `dict.__eq__`: order-insensitive equality of key-value sets. -/
def dicteq {κ ν : Type} [DecidableEq κ] [DecidableEq ν] (d e : List (κ × ν)) : Bool :=
  d.all (fun p => dget e p.1 == some p.2) && e.all (fun p => dget d p.1 == some p.2)

theorem dget_dset {κ ν : Type} [DecidableEq κ] (d : List (κ × ν)) (k k' : κ) (v : ν) :
    dget (dset d k v) k' = if k' = k then some v else dget d k' := by
  induction d with
  | nil =>
    by_cases hk : k' = k
    · simp [dget, dset, hk]
    · have h1 : ¬k = k' := fun h => hk h.symm
      simp [dget, dset, hk, h1]
  | cons p d ih =>
    by_cases hp : p.1 = k
    · by_cases hk : k' = k
      · simp [dget, dset, hp, hk]
      · have h1 : ¬k = k' := fun h => hk h.symm
        have h2 : ¬p.1 = k' := fun h => hk (h.symm.trans hp)
        simp [dget, dset, hp, hk, h1, h2]
    · by_cases hk' : p.1 = k'
      · have hkk : ¬k' = k := fun h => hp (hk'.trans h)
        simp [dget, dset, hp, hk', hkk]
      · simp [dget, dset, hp, hk', ih]

theorem dget_dpop {κ ν : Type} [DecidableEq κ] (d : List (κ × ν)) (k k' : κ) :
    dget (dpop d k) k' = if k' = k then none else dget d k' := by
  induction d with
  | nil => simp [dget, dpop]
  | cons p d ih =>
    by_cases hp : p.1 = k
    · by_cases hk : k' = k
      · subst hk
        simp [dget, dpop, hp, ih]
      · have h1 : ¬k = k' := fun h => hk h.symm
        have h2 : ¬p.1 = k' := fun h => hk (h.symm.trans hp)
        simp [dget, dpop, hp, hk, h1, h2, ih]
    · by_cases hk' : p.1 = k'
      · have hkk : ¬k' = k := fun h => hp (hk'.trans h)
        simp [dget, dpop, hp, hk', hkk]
      · simp [dget, dpop, hp, hk', ih]

/-- Membership after `dset`: every entry is the new pair or an old entry. -/
theorem mem_dset {κ ν : Type} [DecidableEq κ] (d : List (κ × ν)) (k : κ) (v : ν)
    (p : κ × ν) (hp : p ∈ dset d k v) : p = (k, v) ∨ p ∈ d := by
  induction d with
  | nil =>
    simp only [dset, List.mem_singleton] at hp
    exact Or.inl hp
  | cons q d ih =>
    by_cases hq : q.1 = k
    · simp only [dset, if_pos hq, List.mem_cons] at hp
      rcases hp with h | h
      · exact Or.inl h
      · exact Or.inr (List.mem_cons_of_mem q h)
    · simp only [dset, if_neg hq, List.mem_cons] at hp
      rcases hp with h | h
      · exact Or.inr (h ▸ List.mem_cons_self q d)
      · rcases ih h with h' | h'
        · exact Or.inl h'
        · exact Or.inr (List.mem_cons_of_mem q h')

/-! ## StarredSegments (viewer_state.py lines 650-857)

A `StarredSegments` maps unsigned 64-bit segment ids to a visibility flag,
with a second dict `_visible` holding exactly the keys mapped to `True`.
Keys are modelled as `Int` (Python ints / numpy uint64 scalars; the two
compare and hash equal in Python, so they are the same dict key). -/

/-- The uint64 modulus. -/
def U64 : Int := 2 ^ 64

/-- Model of `np.uint64(n)` applied to a Python int: the value cast into
[0, 2^64) (C-style wraparound, which the source's `if k != item` /
`np.uint64(k) != k` guards are written to detect). -/
def npUint64OfInt (n : Int) : Int := n % U64

/-- Decimal digit characters to a natural number (`none` when empty or when a
non-digit occurs). -/
def digitsToNat? : List Char → Option Nat
  | [] => none
  | cs =>
    if cs.all (fun c => c.isDigit) then
      some (cs.foldl (fun a c => a * 10 + (c.toNat - 48)) 0)
    else none

/-- Model of `int(s)` for a decimal string literal with an optional leading
minus sign (the forms relevant to segment-id strings). -/
def strToInt? (s : String) : Option Int :=
  match s.data with
  | '-' :: rest => (digitsToNat? rest).map (fun n => -(n : Int))
  | cs => (digitsToNat? cs).map (fun n => (n : Int))

/-- Model of `np.uint64(s)` applied to a string: the string must parse as an
integer whose value fits in [0, 2^64), otherwise the conversion fails with a
value error (numpy rejects malformed and out-of-range strings). -/
def npUint64OfString (s : String) : Except PyError Int :=
  match strToInt? s with
  | none => .error .valueError
  | some n => if 0 ≤ n ∧ n < U64 then .ok n else .error .valueError

/-- State of a `StarredSegments` object: the read-only flag and the two
backing dicts `_data` and `_visible`. -/
structure StarredSegments where
  readonly : Bool
  data : List (Int × Bool)
  visible : List (Int × Bool)
  deriving DecidableEq, Repr

/-- One element accepted by `StarredSegments._update` when the source is an
iterable: a Python int, a string (optionally `!`-prefixed), or an
`(id, visible)` pair. -/
inductive UpdateItem where
  | int (n : Int)
  | str (s : String)
  | pair (k : Int) (v : Bool)
  deriving DecidableEq, Repr

/-- The per-item parsing step of `StarredSegments._update` (lines 684-708):
an int item stars the id visible (value error unless it fits uint64); a string
item strips an optional leading `!` (hidden) and converts the rest with
`np.uint64`; a pair item requires an integral id equal to its uint64 cast
(else a type error; the Lean `Bool` component satisfies `isinstance(v, bool)`
by construction). -/
def parseUpdateItem : UpdateItem → Except PyError (Int × Bool)
  | .int n =>
    let k := npUint64OfInt n
    if k ≠ n then .error .valueError else .ok (k, true)
  | .str s =>
    match s.data with
    | '!' :: rest =>
      match npUint64OfString ⟨rest⟩ with
      | .error e => .error e
      | .ok k => .ok (k, false)
    | _ =>
      match npUint64OfString s with
      | .error e => .error e
      | .ok k => .ok (k, true)
  | .pair k v =>
    if npUint64OfInt k ≠ k then .error .typeError
    else .ok (npUint64OfInt k, v)

/-- Lines 710-714 of `_update`: store the parsed entry in `_data`, and keep
`_visible` holding exactly the keys currently mapped to `True`. -/
def applyEntry (s : StarredSegments) (kv : Int × Bool) : StarredSegments :=
  { s with
    data := dset s.data kv.1 kv.2
    visible := if kv.2 then dset s.visible kv.1 true else dpop s.visible kv.1 }

/-- The iterable branch of `StarredSegments._update` (lines 678-714): items are
processed in order, mutating the dicts as it goes; the first invalid item
raises, leaving the mutations of the earlier items in place. -/
def updateItems : StarredSegments → List UpdateItem → StarredSegments × Option PyError
  | s, [] => (s, none)
  | s, item :: rest =>
    match parseUpdateItem item with
    | .error e => (s, some e)
    | .ok kv => updateItems (applyEntry s kv) rest

/-- The `isinstance(other, StarredSegments)` branch of `_update` (lines
669-676): `self._data.update(other._data)` merges the data dict; the following
loop `for k, v in other._data` iterates the KEYS of `other._data` and attempts
to unpack each (an int) as a pair, which raises `TypeError` on the first key —
so for a non-empty source the method fails after mutating `_data`, and only
for an empty source does it reach `visible.update(other._visible)`. -/
def updateFromStarred (s other : StarredSegments) : StarredSegments × Option PyError :=
  let s' := { s with data := dupdate s.data other.data }
  if other.data.isEmpty then
    ({ s' with visible := dupdate s'.visible other.visible }, none)
  else (s', some .typeError)

/-- `StarredSegments.__init__` from a list of items (lines 660-666): fresh
dicts, then `_update`; an exception escapes the constructor, so no object is
produced. -/
def StarredSegments.init (items : List UpdateItem) (ro : Bool) :
    Except PyError StarredSegments :=
  match updateItems ⟨ro, [], []⟩ items with
  | (s, none) => .ok s
  | (_, some e) => .error e

/-- `StarredSegments.copy` (lines 716-718): `StarredSegments(self)`, i.e. a
fresh mutable instance updated from `self` via the `StarredSegments` branch of
`_update`. -/
def StarredSegments.copy (s : StarredSegments) : Except PyError StarredSegments :=
  match updateFromStarred ⟨false, [], []⟩ s with
  | (c, none) => .ok c
  | (_, some e) => .error e

/-- `StarredSegments.__getitem__` (lines 770-772): `self._data[segment_id]`,
raising `KeyError` when absent. -/
def StarredSegments.getitem (s : StarredSegments) (k : Int) : Except PyError Bool :=
  match dget s.data k with
  | some v => .ok v
  | none => .error .keyError

/-- `StarredSegments.get` (lines 757-768). -/
def StarredSegments.getd (s : StarredSegments) (k : Int) (dflt : Option Bool) : Option Bool :=
  match dget s.data k with
  | some v => some v
  | none => dflt

/-- `StarredSegments.__contains__` (lines 724-726). -/
def StarredSegments.contains (s : StarredSegments) (k : Int) : Bool :=
  (dget s.data k).isSome

/-- `StarredSegments.to_json` (lines 834-839): the ids in insertion order,
`!`-prefixed when hidden. -/
def StarredSegments.to_json (s : StarredSegments) : List String :=
  s.data.map (fun p => if p.2 then toString p.1 else "!" ++ toString p.1)

/-- `StarredSegments.__eq__` (lines 740-743): dict equality of `_data`. -/
def StarredSegments.eqData (s : StarredSegments) (other : List (Int × Bool)) : Bool :=
  dicteq s.data other

/-- `StarredSegments.add` (lines 745-749): read-only check, then
`setdefault(segment_id, True)` (no-op when already starred, otherwise
`__setitem__` with `True`). -/
def StarredSegments.add (s : StarredSegments) (k : Int) : StarredSegments × Option PyError :=
  if s.readonly then (s, some .attributeError)
  else if (dget s.data k).isSome then (s, none)
  else (applyEntry s (k, true), none)

/-- `StarredSegments.__setitem__` (lines 790-798). -/
def StarredSegments.setitem (s : StarredSegments) (k : Int) (v : Bool) :
    StarredSegments × Option PyError :=
  if s.readonly then (s, some .attributeError)
  else (applyEntry s (k, v), none)

/-- `StarredSegments.remove` (lines 774-783): read-only check;
`del self._data[segment_id]` raises `KeyError` when the id is not starred;
then `self._visible.pop(segment_id)` — note: WITHOUT a default, so it raises
`KeyError` when the id was starred with visibility `False`, after `_data` has
already been mutated. -/
def StarredSegments.remove (s : StarredSegments) (k : Int) : StarredSegments × Option PyError :=
  if s.readonly then (s, some .attributeError)
  else if (dget s.data k).isNone then (s, some .keyError)
  else
    let s' := { s with data := dpop s.data k }
    if (dget s'.visible k).isSome then
      ({ s' with visible := dpop s'.visible k }, none)
    else (s', some .keyError)

/-- `StarredSegments.discard` (lines 785-788): `pop` with default on both
dicts — note: NO read-only check, unlike every other mutator of the class. -/
def StarredSegments.discard (s : StarredSegments) (k : Int) : StarredSegments × Option PyError :=
  ({ s with data := dpop s.data k, visible := dpop s.visible k }, none)

/-- `StarredSegments.__delitem__` (lines 800-809): read-only check; `del`
raises `KeyError` when absent; `self._visible.pop(segment_id, None)` (with a
default, unlike `remove`). -/
def StarredSegments.delitem (s : StarredSegments) (k : Int) : StarredSegments × Option PyError :=
  if s.readonly then (s, some .attributeError)
  else if (dget s.data k).isNone then (s, some .keyError)
  else ({ s with data := dpop s.data k, visible := dpop s.visible k }, none)

/-- `StarredSegments.clear` (lines 811-816). -/
def StarredSegments.clearSeg (s : StarredSegments) : StarredSegments × Option PyError :=
  if s.readonly then (s, some .attributeError)
  else ({ s with data := [], visible := [] }, none)

/-- `StarredSegments.update` with an iterable argument (lines 821-832):
read-only check, then `_update`. -/
def StarredSegments.update (s : StarredSegments) (items : List UpdateItem) :
    StarredSegments × Option PyError :=
  if s.readonly then (s, some .attributeError)
  else updateItems s items

/-- The loop of the `visible` property setter (lines 850-855): build
`new_dict` from the ids, raising a value error on any id outside uint64 range
(before any mutation of `self`). -/
def buildVisibleDict : List Int → List (Int × Bool) → Except PyError (List (Int × Bool))
  | [], acc => .ok acc
  | k :: rest, acc =>
    if npUint64OfInt k ≠ k then .error .valueError
    else buildVisibleDict rest (dset acc (npUint64OfInt k) true)

/-- The `visible` property setter (lines 848-857): REPLACES `_data` with
exactly the given ids all visible, and `_visible` with a copy; the previous
contents are discarded entirely. -/
def StarredSegments.setVisible (s : StarredSegments) (ids : List Int) :
    StarredSegments × Option PyError :=
  match buildVisibleDict ids [] with
  | .error e => (s, some e)
  | .ok d => ({ s with data := d, visible := d }, none)

/-! ## Theorems about StarredSegments -/

/-- A successful `np.uint64` string conversion yields a value in range. -/
theorem npUint64OfString_bounds (s : String) (k : Int)
    (h : npUint64OfString s = .ok k) : 0 ≤ k ∧ k < U64 := by
  unfold npUint64OfString at h
  split at h
  · exact absurd h (by simp)
  · split at h
    · rename_i hb
      cases h
      exact hb
    · exact absurd h (by simp)

/-- Bounds of the parsed key in any successfully parsed update item. -/
theorem parseUpdateItem_bounds (item : UpdateItem) (kv : Int × Bool)
    (h : parseUpdateItem item = .ok kv) : 0 ≤ kv.1 ∧ kv.1 < U64 := by
  have hU : (0 : Int) < U64 := by norm_num [U64]
  cases item with
  | int n =>
    simp only [parseUpdateItem] at h
    split at h
    · exact absurd h (by simp)
    · cases h
      exact ⟨Int.emod_nonneg n (ne_of_gt hU), Int.emod_lt_of_pos n hU⟩
  | str s =>
    simp only [parseUpdateItem] at h
    split at h
    all_goals
      split at h
      · exact absurd h (by simp)
      · rename_i k hn
        cases h
        exact npUint64OfString_bounds _ k hn
  | pair k v =>
    simp only [parseUpdateItem] at h
    split at h
    · exact absurd h (by simp)
    · cases h
      exact ⟨Int.emod_nonneg k (ne_of_gt hU), Int.emod_lt_of_pos k hU⟩

/-- `updateItems` keeps every data key inside the uint64 range (whether or not
it raises part-way). -/
theorem updateItems_bounds (items : List UpdateItem) (s : StarredSegments)
    (hs : ∀ p ∈ s.data, 0 ≤ p.1 ∧ p.1 < U64) :
    ∀ p ∈ (updateItems s items).1.data, 0 ≤ p.1 ∧ p.1 < U64 := by
  induction items generalizing s with
  | nil => exact hs
  | cons item rest ih =>
    simp only [updateItems]
    cases hparse : parseUpdateItem item with
    | error e => exact hs
    | ok kv =>
      refine ih (applyEntry s kv) ?_
      intro p hp
      rcases mem_dset s.data kv.1 kv.2 p hp with h | h
      · subst h
        exact parseUpdateItem_bounds item kv hparse
      · exact hs p h

/-- Claim C8: `StarredSegments([2**64])` and `StarredSegments(["-1"])` both
fail with a value error, and every segment id accepted at construction lies in
the unsigned 64-bit range. -/
theorem segment_id_bounds :
    (StarredSegments.init [.int (2 ^ 64)] false = .error .valueError)
  ∧ (StarredSegments.init [.str "-1"] false = .error .valueError)
  ∧ (∀ items ro s, StarredSegments.init items ro = .ok s →
      ∀ p ∈ s.data, 0 ≤ p.1 ∧ p.1 < 2 ^ 64) := by
  refine ⟨rfl, rfl, ?_⟩
  intro items ro s hinit p hp
  have hU : (U64 : Int) = 2 ^ 64 := rfl
  unfold StarredSegments.init at hinit
  have hbounds := updateItems_bounds items ⟨ro, [], []⟩ (by intro q hq; cases hq)
  split at hinit
  · rename_i s' e heq
    cases hinit
    rw [heq] at hbounds
    exact hU ▸ hbounds p hp
  · exact absurd hinit (by simp)

/-- Witness for C8 at a concrete accepted construction. -/
theorem segment_id_bounds_witness : 0 ≤ (5 : Int) ∧ (5 : Int) < 2 ^ 64 :=
  segment_id_bounds.2.2 [.int 5] false ⟨false, [(5, true)], [(5, true)]⟩ rfl
    (5, true) (List.mem_singleton.mpr rfl)

/-- Claim C1: after `s.update([1, "!2", (3, True)])` the stored visibility is
`s[1]==True`, `s[2]==False`, `s[3]==True`; subsequently `s.visible = [5]`
overwrites the entire starred set, leaving `s == {5: True}` regardless of what
was starred before. -/
theorem starred_update_then_visible_overwrite (s : StarredSegments)
    (h : s.readonly = false) :
    ((s.update [.int 1, .str "!2", .pair 3 true]).2 = none)
  ∧ ((s.update [.int 1, .str "!2", .pair 3 true]).1.getitem 1 = .ok true)
  ∧ ((s.update [.int 1, .str "!2", .pair 3 true]).1.getitem 2 = .ok false)
  ∧ ((s.update [.int 1, .str "!2", .pair 3 true]).1.getitem 3 = .ok true)
  ∧ (((s.update [.int 1, .str "!2", .pair 3 true]).1.setVisible [5]).2 = none)
  ∧ (((s.update [.int 1, .str "!2", .pair 3 true]).1.setVisible [5]).1.data = [(5, true)])
  ∧ (((s.update [.int 1, .str "!2", .pair 3 true]).1.setVisible [5]).1.eqData [(5, true)] = true) := by
  have hu : s.update [.int 1, .str "!2", .pair 3 true]
      = (applyEntry (applyEntry (applyEntry s (1, true)) (2, false)) (3, true), none) := by
    unfold StarredSegments.update
    rw [h]
    rfl
  have hd : (applyEntry (applyEntry (applyEntry s (1, true)) (2, false)) (3, true)).data
      = dset (dset (dset s.data 1 true) 2 false) 3 true := rfl
  refine ⟨by rw [hu], ?_, ?_, ?_, ?_, ?_, ?_⟩
  · rw [hu]
    simp [StarredSegments.getitem, hd, dget_dset]
  · rw [hu]
    simp [StarredSegments.getitem, hd, dget_dset]
  · rw [hu]
    simp [StarredSegments.getitem, hd, dget_dset]
  · rw [hu]
    rfl
  · rw [hu]
    rfl
  · rw [hu]
    rfl

/-- Witness for C1 at the fresh mutable `StarredSegments()`. -/
theorem starred_update_then_visible_overwrite_witness :
    ((StarredSegments.update ⟨false, [], []⟩ [.int 1, .str "!2", .pair 3 true]).1.getitem 2
      = .ok false)
  ∧ (((StarredSegments.update ⟨false, [], []⟩
        [.int 1, .str "!2", .pair 3 true]).1.setVisible [5]).1.data = [(5, true)]) :=
  ⟨(starred_update_then_visible_overwrite ⟨false, [], []⟩ rfl).2.2.1,
   (starred_update_then_visible_overwrite ⟨false, [], []⟩ rfl).2.2.2.2.2.1⟩

/-- Claim C5 (refuted by the code): `copy()` of any non-empty
`StarredSegments` raises `TypeError`, because the `StarredSegments` branch of
`_update` iterates `other._data` — the dict KEYS — and unpacks each int key as
a pair.  Only the empty instance can be copied. -/
theorem starred_copy_raises_typeerror :
    (StarredSegments.copy ⟨false, [(1, true)], [(1, true)]⟩ = .error .typeError)
  ∧ (StarredSegments.copy ⟨false, [], []⟩ = .ok ⟨false, [], []⟩)
  ∧ (∀ s : StarredSegments, s.data ≠ [] → StarredSegments.copy s = .error .typeError) := by
  refine ⟨rfl, rfl, ?_⟩
  intro s hs
  unfold StarredSegments.copy updateFromStarred
  have : s.data.isEmpty = false := by
    cases hdata : s.data with
    | nil => exact absurd hdata hs
    | cons p d => rfl
  simp [this]

/-- Witness for C5's universal part at a one-element instance. -/
theorem starred_copy_raises_typeerror_witness :
    StarredSegments.copy ⟨false, [(7, false)], []⟩ = .error .typeError :=
  starred_copy_raises_typeerror.2.2 ⟨false, [(7, false)], []⟩ (by simp)

/-- Claim C6 (refuted by the code): `remove` on a segment starred with
visibility `False` raises `KeyError` — `self._visible.pop(segment_id)` has no
default — and the removal from `_data` survives the exception (partial
mutation).  `remove` on an absent segment raises `KeyError` leaving the state
unchanged; `remove` on a visible segment succeeds; `discard` on an absent
segment is a silent no-op. -/
theorem starred_remove_hidden_raises :
    (StarredSegments.remove ⟨false, [(2, false)], []⟩ 2 = (⟨false, [], []⟩, some .keyError))
  ∧ (StarredSegments.remove ⟨false, [], []⟩ 2 = (⟨false, [], []⟩, some .keyError))
  ∧ (StarredSegments.remove ⟨false, [(1, true)], [(1, true)]⟩ 1 = (⟨false, [], []⟩, none))
  ∧ (StarredSegments.discard ⟨false, [], []⟩ 2 = (⟨false, [], []⟩, none)) :=
  ⟨rfl, rfl, rfl, rfl⟩

/-- Claim C7 (refuted by the code): on a read-only `StarredSegments`, `add`,
`__setitem__`, `remove`, `__delitem__`, `clear` and `update` all raise the
immutability error and leave the state unchanged — but `discard` performs NO
read-only check and silently mutates the instance; read operations never raise
the immutability error. -/
theorem starred_readonly_discard_mutates :
    (StarredSegments.discard ⟨true, [(1, true)], [(1, true)]⟩ 1 = (⟨true, [], []⟩, none))
  ∧ (StarredSegments.add ⟨true, [(1, true)], [(1, true)]⟩ 2
      = (⟨true, [(1, true)], [(1, true)]⟩, some .attributeError))
  ∧ (StarredSegments.setitem ⟨true, [(1, true)], [(1, true)]⟩ 2 false
      = (⟨true, [(1, true)], [(1, true)]⟩, some .attributeError))
  ∧ (StarredSegments.remove ⟨true, [(1, true)], [(1, true)]⟩ 1
      = (⟨true, [(1, true)], [(1, true)]⟩, some .attributeError))
  ∧ (StarredSegments.delitem ⟨true, [(1, true)], [(1, true)]⟩ 1
      = (⟨true, [(1, true)], [(1, true)]⟩, some .attributeError))
  ∧ (StarredSegments.clearSeg ⟨true, [(1, true)], [(1, true)]⟩
      = (⟨true, [(1, true)], [(1, true)]⟩, some .attributeError))
  ∧ (StarredSegments.update ⟨true, [(1, true)], [(1, true)]⟩ [.int 2]
      = (⟨true, [(1, true)], [(1, true)]⟩, some .attributeError))
  ∧ (StarredSegments.getitem ⟨true, [(1, true)], [(1, true)]⟩ 1 = .ok true)
  ∧ (StarredSegments.contains ⟨true, [(1, true)], [(1, true)]⟩ 1 = true)
  ∧ (StarredSegments.to_json ⟨true, [(1, true)], [(1, true)]⟩ = ["1"]) :=
  ⟨rfl, rfl, rfl, rfl, rfl, rfl, rfl, rfl, rfl, rfl⟩

/-! ## Quaternion slerp (viewer_state.py lines 61-111)

Floating-point arithmetic is idealised as real arithmetic; quaternions are
maps `Fin 4 → ℝ`, an absent operand is `Option.none`. -/

/-- `interpolate_linear` (lines 61-62). -/
noncomputable def interpolate_linear (a b t : ℝ) : ℝ := a * (1 - t) + b * t

/-- `np.dot` on 4-vectors. -/
noncomputable def qdot (a b : Fin 4 → ℝ) : ℝ :=
  a 0 * b 0 + a 1 * b 1 + a 2 * b 2 + a 3 * b 3

/-- `unit_quaternion()` (lines 71-72): the identity quaternion [0, 0, 0, 1]. -/
noncomputable def unit_quaternion : Fin 4 → ℝ := fun i => if i = 3 then 1 else 0

/-- `quaternion_slerp` (lines 75-104): treat `None` operands as the identity;
negate the second operand when the cosine is negative (shortest path); in the
near-identical case (`1 - cosom <= 1e-6`) fall back to a linear blend of the
coefficients, otherwise use the standard sine-ratio coefficients. -/
noncomputable def quaternion_slerp (a? b? : Option (Fin 4 → ℝ)) (t : ℝ) : Fin 4 → ℝ :=
  let a := a?.getD unit_quaternion
  let b0 := b?.getD unit_quaternion
  let cosom0 := qdot a b0
  let cosom := if cosom0 < 0 then -cosom0 else cosom0
  let b := if cosom0 < 0 then (fun i => -(b0 i)) else b0
  let scale0 :=
    if 1 - cosom > 0.000001 then
      Real.sin ((1 - t) * Real.arccos cosom) / Real.sin (Real.arccos cosom)
    else 1 - t
  let scale1 :=
    if 1 - cosom > 0.000001 then
      Real.sin (t * Real.arccos cosom) / Real.sin (Real.arccos cosom)
    else t
  fun i => scale0 * a i + scale1 * b i

theorem qdot_neg_right (a b : Fin 4 → ℝ) : qdot a (fun i => -b i) = -qdot a b := by
  unfold qdot
  ring

/-- Evaluation of `quaternion_slerp` when the cosine is exactly 1: the
sign-adjustment branch is skipped and the near-identical linear fallback is
taken. -/
theorem slerp_eval_cos_one (a b : Fin 4 → ℝ) (t : ℝ) (h : qdot a b = 1) :
    quaternion_slerp (some a) (some b) t = fun i => (1 - t) * a i + t * b i := by
  unfold quaternion_slerp
  simp only [Option.getD_some]
  rw [h]
  norm_num

/-- Evaluation of `quaternion_slerp` when the cosine is exactly -1: the second
operand is negated (shortest-path correction), the corrected cosine is 1 and
the linear fallback is taken. -/
theorem slerp_eval_cos_negone (a b : Fin 4 → ℝ) (t : ℝ) (h : qdot a b = -1) :
    quaternion_slerp (some a) (some b) t = fun i => (1 - t) * a i + t * -(b i) := by
  unfold quaternion_slerp
  simp only [Option.getD_some]
  rw [h]
  norm_num

/-- Claim C2: for a unit quaternion `q`, `quaternion_slerp(q, q, t) = q` for
every `t` in [0, 1] (the near-identical fallback applies, no division by
zero); `quaternion_slerp(q, -q, 1/2)` equals the result after negating one
operand first (shortest-path correction); and a `None` operand is interpreted
as the identity quaternion. -/
theorem quaternion_slerp_boundary (q : Fin 4 → ℝ) (t : ℝ) (hq : qdot q q = 1)
    (ht0 : 0 ≤ t) (ht1 : t ≤ 1) :
    (quaternion_slerp (some q) (some q) t = q)
  ∧ (quaternion_slerp (some q) (some (fun i => -q i)) (1 / 2)
      = quaternion_slerp (some q) (some q) (1 / 2))
  ∧ (∀ b? s, quaternion_slerp none b? s = quaternion_slerp (some unit_quaternion) b? s)
  ∧ (∀ a? s, quaternion_slerp a? none s = quaternion_slerp a? (some unit_quaternion) s) := by
  have hneg : qdot q (fun i => -q i) = -1 := by rw [qdot_neg_right, hq]
  refine ⟨?_, ?_, fun b? s => rfl, fun a? s => rfl⟩
  · rw [slerp_eval_cos_one q q t hq]
    funext i
    ring
  · rw [slerp_eval_cos_negone q (fun i => -q i) (1 / 2) hneg,
      slerp_eval_cos_one q q (1 / 2) hq]
    funext i
    ring

/-- Witness for C2 at the identity quaternion and `t = 1/2`. -/
theorem quaternion_slerp_boundary_witness :
    quaternion_slerp (some unit_quaternion) (some unit_quaternion) (1 / 2)
      = unit_quaternion := by
  have h0 : unit_quaternion 0 = 0 := rfl
  have h1 : unit_quaternion 1 = 0 := rfl
  have h2 : unit_quaternion 2 = 0 := rfl
  have h3 : unit_quaternion 3 = 1 := rfl
  exact (quaternion_slerp_boundary unit_quaternion (1 / 2)
    (by simp [qdot, h0, h1, h2, h3]) (by norm_num) (by norm_num)).1

/-! ## Tool registry and discriminant dispatch (viewer_state.py lines 114-352, 1024-1045) -/

/-- The concrete `Tool` subclasses registered with `@export_tool`, in source
order. -/
inductive ToolClass where
  | PlacePointTool | PlaceLineTool | PlaceBoundingBoxTool | PlaceEllipsoidTool
  | BlendTool | OpacityTool | VolumeRenderingTool | VolumeRenderingGainTool
  | VolumeRenderingDepthSamplesTool | CrossSectionRenderScaleTool
  | SelectedAlphaTool | NotSelectedAlphaTool | ObjectAlphaTool
  | HideSegmentZeroTool | HoverHighlightTool | BaseSegmentColoringTool
  | IgnoreNullVisibleSetTool | ColorSeedTool | SegmentDefaultColorTool
  | MeshRenderScaleTool | MeshSilhouetteRenderingTool | SaturationTool
  | SkeletonRenderingMode2dTool | SkeletonRenderingMode3dTool
  | SkeletonRenderingLineWidth2dTool | SkeletonRenderingLineWidth3dTool
  | ShaderControlTool | MergeSegmentsTool | SplitSegmentsTool
  | SelectSegmentsTool | DimensionTool
  deriving DecidableEq, Repr

/-- The `TOOL_TYPE` discriminant of each registered tool class. -/
def TOOL_TYPE : ToolClass → String
  | .PlacePointTool => "annotatePoint"
  | .PlaceLineTool => "annotateLine"
  | .PlaceBoundingBoxTool => "annotateBoundingBox"
  | .PlaceEllipsoidTool => "annotateSphere"
  | .BlendTool => "blend"
  | .OpacityTool => "opacity"
  | .VolumeRenderingTool => "volumeRendering"
  | .VolumeRenderingGainTool => "volumeRenderingGain"
  | .VolumeRenderingDepthSamplesTool => "volumeRenderingDepthSamples"
  | .CrossSectionRenderScaleTool => "crossSectionRenderScale"
  | .SelectedAlphaTool => "selectedAlpha"
  | .NotSelectedAlphaTool => "notSelectedAlpha"
  | .ObjectAlphaTool => "objectAlpha"
  | .HideSegmentZeroTool => "hideSegmentZero"
  | .HoverHighlightTool => "hoverHighlight"
  | .BaseSegmentColoringTool => "baseSegmentColoring"
  | .IgnoreNullVisibleSetTool => "ignoreNullVisibleSet"
  | .ColorSeedTool => "colorSeed"
  | .SegmentDefaultColorTool => "segmentDefaultColor"
  | .MeshRenderScaleTool => "meshRenderScale"
  | .MeshSilhouetteRenderingTool => "meshSilhouetteRendering"
  | .SaturationTool => "saturation"
  | .SkeletonRenderingMode2dTool => "skeletonRendering.mode2d"
  | .SkeletonRenderingMode3dTool => "skeletonRendering.mode3d"
  | .SkeletonRenderingLineWidth2dTool => "skeletonRendering.lineWidth2d"
  | .SkeletonRenderingLineWidth3dTool => "skeletonRendering.lineWidth3d"
  | .ShaderControlTool => "shaderControl"
  | .MergeSegmentsTool => "mergeSegments"
  | .SplitSegmentsTool => "splitSegments"
  | .SelectSegmentsTool => "selectSegments"
  | .DimensionTool => "dimension"

/-- The `tool_types` registry built by the `@export_tool` decorators:
discriminant string to concrete class, in registration order. -/
def tool_types : List (String × ToolClass) :=
  [ToolClass.PlacePointTool, .PlaceLineTool, .PlaceBoundingBoxTool,
   .PlaceEllipsoidTool, .BlendTool, .OpacityTool, .VolumeRenderingTool,
   .VolumeRenderingGainTool, .VolumeRenderingDepthSamplesTool,
   .CrossSectionRenderScaleTool, .SelectedAlphaTool, .NotSelectedAlphaTool,
   .ObjectAlphaTool, .HideSegmentZeroTool, .HoverHighlightTool,
   .BaseSegmentColoringTool, .IgnoreNullVisibleSetTool, .ColorSeedTool,
   .SegmentDefaultColorTool, .MeshRenderScaleTool, .MeshSilhouetteRenderingTool,
   .SaturationTool, .SkeletonRenderingMode2dTool, .SkeletonRenderingMode3dTool,
   .SkeletonRenderingLineWidth2dTool, .SkeletonRenderingLineWidth3dTool,
   .ShaderControlTool, .MergeSegmentsTool, .SplitSegmentsTool,
   .SelectSegmentsTool, .DimensionTool].map (fun c => (TOOL_TYPE c, c))

/-- A scalar JSON value (enough to model the discriminant field of a tool
JSON object). -/
inductive JsonVal where
  | null
  | bool (b : Bool)
  | int (n : Int)
  | str (s : String)
  deriving DecidableEq, Repr

/-- The argument accepted by the abstract `Tool(...)` constructor: `None`
(the default), a bare string, a JSON dict, or an existing `Tool` instance. -/
inductive ToolArg where
  | pynone
  | str (s : String)
  | dict (d : List (String × JsonVal))
  | inst (c : ToolClass)
  deriving DecidableEq, Repr

/-- A constructed tool: its concrete class and the value of its wrapped
`type` field.  `Tool.__init__` (lines 135-139) passes `type=cls.TOOL_TYPE` as
a keyword, and keyword arguments set fields after base initialisation
(modelled from the spec for `JsonObjectWrapper`, `json_wrappers.py`, which is
not under src/), so the field always ends up equal to the class discriminant. -/
structure ToolInstance where
  cls : ToolClass
  type : String
  deriving DecidableEq, Repr

/-- `type.__call__(cls, obj, ...)` for a registered tool class. -/
def constructTool (c : ToolClass) : ToolInstance := ⟨c, TOOL_TYPE c⟩

/-- `_factory_new` (lines 1024-1045) as invoked by `_ToolMetaclass.__call__`
with `registry=tool_types`, `base_class=Tool`, `cls=Tool`, `allow_str=True`:
an existing instance re-dispatches on its own class; a bare string `s` is
treated as `{"type": s}`; a dict's `"type"` entry is looked up in the registry
(`registry[t]`, raising `KeyError` on a miss — including when `"type"` is
absent or not a string, since no string key of the registry equals it); any
other argument raises `TypeError`. -/
def Tool_new : ToolArg → Except PyError ToolInstance
  | .inst c => .ok (constructTool c)
  | .str s =>
    match tool_types.find? (fun p => p.1 == s) with
    | some p => .ok (constructTool p.2)
    | none => .error .keyError
  | .dict d =>
    match dget d "type" with
    | some (.str s) =>
      match tool_types.find? (fun p => p.1 == s) with
      | some p => .ok (constructTool p.2)
      | none => .error .keyError
    | _ => .error .keyError
  | .pynone => .error .typeError

/-- Claim C3: `Tool("blend")` dispatches to the registered concrete class
`BlendTool` with `type == "blend"`; `Tool({"type": "nonexistentTool"})` fails
with the unknown-discriminant lookup error (`KeyError`), which is a distinct
error kind from a type error or a value error. -/
theorem tool_discriminant_dispatch :
    (Tool_new (.str "blend") = .ok ⟨.BlendTool, "blend"⟩)
  ∧ (Tool_new (.dict [("type", .str "nonexistentTool")]) = .error .keyError)
  ∧ (PyError.keyError ≠ PyError.typeError)
  ∧ (PyError.keyError ≠ PyError.valueError) := by
  refine ⟨rfl, rfl, by decide, by decide⟩

/-! ## Interpolation protocol: linked values, cross sections, layouts
(viewer_state.py lines 61-111, 1418-1557, 1560-1762) -/

/-- `interpolate_linear_optional_vectors` (lines 65-68): elementwise linear
blend when both vectors are present with equal lengths, else the first
operand unchanged. -/
noncomputable def interpolate_linear_optional_vectors
    (a b : Option (List ℝ)) (t : ℝ) : Option (List ℝ) :=
  match a, b with
  | some x, some y =>
    if x.length = y.length then
      some (List.zipWith (fun u v => u * (1 - t) + v * t) x y)
    else some x
  | _, _ => a

/-- `interpolate_zoom` (lines 107-111): logarithmic blend
`a * exp(t * ln(b / a))`; the first operand unchanged when either is absent. -/
noncomputable def interpolate_zoom (a b : Option ℝ) (t : ℝ) : Option ℝ :=
  match a, b with
  | some x, some y => some (x * Real.exp (Real.log (y / x) * t))
  | _, _ => a

/-- `quaternion_slerp` as the `_interpolate_function` of
`LinkedOrientationState` (line 1511): the result is always a present vector. -/
noncomputable def slerpOpt (a b : Option (Fin 4 → ℝ)) (t : ℝ) : Option (Fin 4 → ℝ) :=
  some (quaternion_slerp a b t)

/-- The three navigation link modes (lines 1418-1423). -/
inductive LinkMode where
  | linked
  | unlinked
  | relative
  deriving DecidableEq, Repr

/-- State of a `LinkedType` wrapper (lines 1431-1454): the link mode and the
optional payload value. -/
structure LinkedValue (α : Type) where
  link : LinkMode
  value : Option α

/-- `LinkedType.interpolate` (lines 1447-1454): the result keeps `a`'s link
mode; the payload is blended only when both sides share the same mode and
that mode is not `linked`, otherwise it is copied from `a`. -/
noncomputable def LinkedValue.interpolate {α : Type}
    (f : Option α → Option α → ℝ → Option α)
    (a b : LinkedValue α) (t : ℝ) : LinkedValue α :=
  if a.link = b.link ∧ a.link ≠ .linked then ⟨a.link, f a.value b.value t⟩
  else ⟨a.link, a.value⟩

/-- State of a `CrossSection` (lines 1520-1528). -/
structure CrossSection where
  width : ℝ
  height : ℝ
  position : LinkedValue (List ℝ)
  orientation : LinkedValue (Fin 4 → ℝ)
  scale : LinkedValue ℝ

/-- `CrossSection.interpolate` (lines 1530-1540). -/
noncomputable def CrossSection.interpolate (a b : CrossSection) (t : ℝ) : CrossSection :=
  { width := interpolate_linear a.width b.width t
    height := interpolate_linear a.height b.height t
    position := LinkedValue.interpolate interpolate_linear_optional_vectors
      a.position b.position t
    orientation := LinkedValue.interpolate slerpOpt a.orientation b.orientation t
    scale := LinkedValue.interpolate interpolate_zoom a.scale b.scale t }

/-- `CrossSectionMap.interpolate` (lines 1551-1557): for each name in `a`,
blend in place when the same name exists in `b`, else keep `a`'s entry. -/
noncomputable def CrossSectionMap.interpolate
    (a b : List (String × CrossSection)) (t : ℝ) : List (String × CrossSection) :=
  a.map (fun p =>
    match dget b p.1 with
    | some q => (p.1, CrossSection.interpolate p.2 q t)
    | none => p)

/-- State of a `DataPanelLayout` (lines 1560-1567). -/
structure DataPanelLayout where
  type : String
  cross_sections : List (String × CrossSection)
  orthographic_projection : Bool

/-- `DataPanelLayout.interpolate` (lines 1579-1587): a type mismatch or an
empty cross-section map returns the first operand unchanged. -/
noncomputable def DataPanelLayout.interpolate (a b : DataPanelLayout) (t : ℝ) :
    DataPanelLayout :=
  if a.type ≠ b.type ∨ a.cross_sections.length = 0 then a
  else { a with cross_sections :=
    CrossSectionMap.interpolate a.cross_sections b.cross_sections t }

/-- State of a `LayerGroupViewer` (lines 1692-1726): the declared wrapped
fields relevant to interpolation (`velocity` and `tool_bindings` are carried
opaquely by the backing JSON and are not interpolated). -/
structure LayerGroupViewer where
  type : String
  flex : ℝ
  layers : List String
  layout : DataPanelLayout
  position : LinkedValue (List ℝ)
  cross_section_orientation : LinkedValue (Fin 4 → ℝ)
  cross_section_scale : LinkedValue ℝ
  cross_section_depth : LinkedValue ℝ
  projection_orientation : LinkedValue (Fin 4 → ℝ)
  projection_scale : LinkedValue ℝ
  projection_depth : LinkedValue ℝ

/-- A value produced by reading one attribute of a `LayerGroupViewer`. -/
inductive LGVAttr where
  | strA (s : String)
  | realA (r : ℝ)
  | strListA (l : List String)
  | layoutA (v : DataPanelLayout)
  | positionA (v : LinkedValue (List ℝ))
  | orientationA (v : LinkedValue (Fin 4 → ℝ))
  | zoomA (v : LinkedValue ℝ)

/-- Modelled from the spec: `JsonObjectWrapper` (`json_wrappers.py`, not under
src/) resolves attribute reads through the declared typed fields only, so
reading an attribute that is not a declared field of `LayerGroupViewer` fails
with `AttributeError`.  `LayerGroupViewer` declares `type`, `flex`, `layers`,
`layout`, `position`, `velocity`, `cross_section_orientation`,
`cross_section_scale`, `cross_section_depth`, `projection_orientation`,
`projection_scale`, `projection_depth` and `tool_bindings` (plus camelCase
aliases of the same fields); there is no `cross_section_zoom`,
`perspective_orientation` or `perspective_zoom` attribute. -/
def LayerGroupViewer.getattr (a : LayerGroupViewer) : String → Except PyError LGVAttr
  | "type" => .ok (.strA a.type)
  | "flex" => .ok (.realA a.flex)
  | "layers" => .ok (.strListA a.layers)
  | "layout" => .ok (.layoutA a.layout)
  | "position" => .ok (.positionA a.position)
  | "cross_section_orientation" => .ok (.orientationA a.cross_section_orientation)
  | "cross_section_scale" => .ok (.zoomA a.cross_section_scale)
  | "cross_section_depth" => .ok (.zoomA a.cross_section_depth)
  | "projection_orientation" => .ok (.orientationA a.projection_orientation)
  | "projection_scale" => .ok (.zoomA a.projection_scale)
  | "projection_depth" => .ok (.zoomA a.projection_depth)
  | _ => .error .attributeError

/-- `type(a_attr).interpolate(a_attr, b_attr, t)` for each attribute kind
(both attributes are read under the same name, so the kinds always match). -/
noncomputable def lgvAttrInterp (x y : LGVAttr) (t : ℝ) : LGVAttr :=
  match x, y with
  | .layoutA u, .layoutA v => .layoutA (DataPanelLayout.interpolate u v t)
  | .positionA u, .positionA v =>
    .positionA (LinkedValue.interpolate interpolate_linear_optional_vectors u v t)
  | .orientationA u, .orientationA v =>
    .orientationA (LinkedValue.interpolate slerpOpt u v t)
  | .zoomA u, .zoomA v => .zoomA (LinkedValue.interpolate interpolate_zoom u v t)
  | x, _ => x

/-- `setattr(c, k, v)` for the interpolable attributes. -/
def LayerGroupViewer.setattrL (c : LayerGroupViewer) (k : String) (v : LGVAttr) :
    LayerGroupViewer :=
  match k, v with
  | "layout", .layoutA x => { c with layout := x }
  | "position", .positionA x => { c with position := x }
  | "cross_section_orientation", .orientationA x => { c with cross_section_orientation := x }
  | "cross_section_scale", .zoomA x => { c with cross_section_scale := x }
  | "cross_section_depth", .zoomA x => { c with cross_section_depth := x }
  | "projection_orientation", .orientationA x => { c with projection_orientation := x }
  | "projection_scale", .zoomA x => { c with projection_scale := x }
  | "projection_depth", .zoomA x => { c with projection_depth := x }
  | _, _ => c

/-- The attribute names iterated by `LayerGroupViewer.interpolate`
(lines 1736-1743), verbatim from the source. -/
def lgvInterpKeys : List String :=
  ["layout", "position", "cross_section_orientation", "cross_section_zoom",
   "perspective_orientation", "perspective_zoom"]

/-- `LayerGroupViewer.interpolate` (lines 1733-1747): deep-copy `a`, then for
each listed attribute name read it from `a` and `b`, blend, and store on the
copy; the first failing attribute read aborts the call with its error. -/
noncomputable def LayerGroupViewer.interpolate (a b : LayerGroupViewer) (t : ℝ) :
    Except PyError LayerGroupViewer :=
  lgvInterpKeys.foldlM
    (fun c k => do
      let xa ← a.getattr k
      let xb ← b.getattr k
      pure (c.setattrL k (lgvAttrInterp xa xb t)))
    a

/-- A node of the layout tree: leaf `DataPanelLayout`, recursive `StackLayout`
(discriminant `"row"` or `"column"`, a `flex` factor and children), or
`LayerGroupViewer` (whose own layout is a leaf panel). -/
inductive LayoutNode where
  | panel (p : DataPanelLayout)
  | stack (type : String) (flex : ℝ) (children : List LayoutNode)
  | viewer (v : LayerGroupViewer)

mutual

/-- `interpolate_layout` (lines 1685-1688) combined with the per-class
`interpolate` static methods it dispatches to: a concrete-type mismatch
returns the first operand; same-class nodes dispatch to
`DataPanelLayout.interpolate`, `StackLayout.interpolate` (lines 1653-1662:
type-discriminant or child-count mismatch returns the first operand, else the
children are blended pairwise through `interpolate_layout`), or
`LayerGroupViewer.interpolate`. -/
noncomputable def interpolate_layout (a b : LayoutNode) (t : ℝ) :
    Except PyError LayoutNode :=
  match a, b with
  | .panel pa, .panel pb => .ok (.panel (DataPanelLayout.interpolate pa pb t))
  | .stack ta fa ca, .stack tb _ cb =>
    if ta ≠ tb ∨ ca.length ≠ cb.length then .ok (.stack ta fa ca)
    else
      match interpolate_children ca cb t with
      | .ok cs => .ok (.stack ta fa cs)
      | .error e => .error e
  | .viewer va, .viewer vb =>
    match LayerGroupViewer.interpolate va vb t with
    | .ok c => .ok (.viewer c)
    | .error e => .error e
  | a, _ => .ok a

/-- The `zip`-driven list comprehension of `StackLayout.interpolate`
(lines 1658-1661), failing on the first child whose interpolation raises. -/
noncomputable def interpolate_children (as' bs : List LayoutNode) (t : ℝ) :
    Except PyError (List LayoutNode) :=
  match as', bs with
  | a :: as', b :: bs =>
    match interpolate_layout a b t with
    | .error e => .error e
    | .ok c =>
      match interpolate_children as' bs t with
      | .error e => .error e
      | .ok cs => .ok (c :: cs)
  | _, _ => .ok []

end

/-- The concrete Python class of a layout node (for stating type mismatches). -/
def layoutCtorIdx : LayoutNode → Nat
  | .panel _ => 0
  | .stack _ _ _ => 1
  | .viewer _ => 2

/-- Claim C4: layout interpolation degrades to the first operand: a
concrete-type mismatch, or two `StackLayout`s with different type
discriminants or different child counts, returns the first operand unchanged
and raises no error. -/
theorem layout_interpolation_degradation (a b : LayoutNode) (t : ℝ) :
    (layoutCtorIdx a ≠ layoutCtorIdx b → interpolate_layout a b t = .ok a)
  ∧ (∀ ta fa ca tb fb cb, a = LayoutNode.stack ta fa ca →
      b = LayoutNode.stack tb fb cb → (ta ≠ tb ∨ ca.length ≠ cb.length) →
      interpolate_layout a b t = .ok a) := by
  constructor
  · intro hne
    cases a <;> cases b <;>
      first
        | exact absurd rfl hne
        | simp [interpolate_layout]
  · intro ta fa ca tb fb cb ha hb hmis
    subst ha
    subst hb
    simp only [interpolate_layout]
    simp [hmis]

/-- Witness for C4: a two-child `row` stack against a one-child `column`
stack comes back unchanged. -/
theorem layout_interpolation_degradation_witness :
    interpolate_layout
      (.stack "row" 1 [.panel ⟨"xy", [], false⟩, .panel ⟨"xy", [], false⟩])
      (.stack "column" 1 [.panel ⟨"xy", [], false⟩]) (1 / 2)
    = .ok (.stack "row" 1 [.panel ⟨"xy", [], false⟩, .panel ⟨"xy", [], false⟩]) :=
  (layout_interpolation_degradation _ _ (1 / 2)).2 "row" 1 _ "column" 1 _ rfl rfl
    (Or.inl (by decide))

/-- Claim C9 (refuted by the code): `LayerGroupViewer.interpolate` ALWAYS
raises `AttributeError`: its attribute list names `cross_section_zoom` (and
`perspective_orientation`, `perspective_zoom`), which are not declared fields
of `LayerGroupViewer` — the fields are `cross_section_scale`,
`projection_orientation` and `projection_scale` — so the fourth `getattr`
fails on every input. -/
theorem lgv_interpolate_attribute_error (a b : LayerGroupViewer) (t : ℝ) :
    LayerGroupViewer.interpolate a b t = .error .attributeError := rfl

/-! ## ManagedLayer (viewer_state.py lines 1220-1289) -/

/-- State of a `ManagedLayer`: its name and the backing JSON mapping, which it
SHARES with the wrapped layer (`ManagedLayer.__init__` passes the same dict to
`make_layer` and to its own `JsonObjectWrapper` base). -/
structure ManagedLayer where
  name : String
  json : List (String × JsonVal)
  deriving DecidableEq, Repr

/-- Reading a `wrapped_property(key, optional(bool))` field from a backing
mapping (modelled from the spec: the typed-field descriptor of
`json_wrappers.py`, not under src/ — an absent or `None` value reads as the
default, a boolean passes through, anything else is a type error). -/
def readOptBool (j : List (String × JsonVal)) (key : String) :
    Except PyError (Option Bool) :=
  match dget j key with
  | none => .ok none
  | some .null => .ok none
  | some (.bool b) => .ok (some b)
  | some _ => .error .typeError

/-- `ManagedLayer._visible` (line 1248): `wrapped_property("visible", optional(bool))`. -/
def ManagedLayer.visibleRaw (m : ManagedLayer) : Except PyError (Option Bool) :=
  readOptBool m.json "visible"

/-- `ManagedLayer.archived` (line 1249):
`wrapped_property("archived", optional(bool, False))`. -/
def ManagedLayer.archivedProp (m : ManagedLayer) : Except PyError Bool :=
  match readOptBool m.json "archived" with
  | .error e => .error e
  | .ok r => .ok (r.getD false)

/-- The `visible` property getter (lines 1251-1253):
`not self.archived and self._visible is not False`. -/
def ManagedLayer.visibleProp (m : ManagedLayer) : Except PyError Bool :=
  match m.archivedProp with
  | .error e => .error e
  | .ok ar =>
    match m.visibleRaw with
    | .error e => .error e
    | .ok vr => .ok (!ar && !(vr == some false))

/-- `ManagedLayer.to_json` (lines 1273-1286): start from the wrapped layer's
serialization (modelled from the spec: `JsonObjectWrapper.to_json` re-emits
keys it does not declare verbatim, and `visible`/`archived` are not declared
`Layer` fields, so the shared backing mapping is carried through unchanged);
set `name`; emit `archived` only when true; pop `visible` when the layer is
visible or archived, else emit `visible: false`. -/
def ManagedLayer.to_json (m : ManagedLayer) : Except PyError (List (String × JsonVal)) :=
  let r0 := dset m.json "name" (.str m.name)
  match m.archivedProp with
  | .error e => .error e
  | .ok ar =>
    let r1 := if ar then dset r0 "archived" (.bool true) else dpop r0 "archived"
    match m.visibleProp with
    | .error e => .error e
    | .ok vis =>
      .ok (if vis || ar then dpop r1 "visible" else dset r1 "visible" (.bool false))

/-- Claim C10: `ManagedLayer.visible` is true exactly when the layer is not
archived and the stored flag is not `False`; `to_json` omits the `"visible"`
key whenever the layer is visible or archived, and emits `"visible": false`
exactly for a non-archived hidden layer. -/
theorem managed_layer_archived_overrides_visible (m : ManagedLayer) (ar : Bool)
    (vr : Option Bool) (har : m.archivedProp = .ok ar)
    (hvr : m.visibleRaw = .ok vr) :
    (m.visibleProp = .ok (!ar && !(vr == some false)))
  ∧ (∀ r, m.to_json = .ok r →
      dget r "visible" =
        if (!ar && !(vr == some false)) || ar then none
        else some (.bool false)) := by
  have hv : m.visibleProp = .ok (!ar && !(vr == some false)) := by
    unfold ManagedLayer.visibleProp
    rw [har, hvr]
  refine ⟨hv, ?_⟩
  intro r hr
  unfold ManagedLayer.to_json at hr
  rw [har, hv] at hr
  simp only at hr
  injection hr with hr
  subst hr
  by_cases hc : ((!ar && !(vr == some false)) || ar) = true
  · simp only [hc, if_true, if_pos]
    rw [dget_dpop]
    simp
  · simp only [hc, if_false, if_neg, Bool.not_eq_true]
    rw [dget_dset]
    simp

/-- Witness for C10 at a non-archived layer whose stored flag is `False`. -/
theorem managed_layer_archived_overrides_visible_witness :
    (ManagedLayer.visibleProp ⟨"layer1", [("visible", JsonVal.bool false)]⟩
      = .ok (!false && !((some false : Option Bool) == some false)))
  ∧ (dget [("visible", JsonVal.bool false), ("name", JsonVal.str "layer1")] "visible"
      = if (!false && !((some false : Option Bool) == some false)) || false then none
        else some (.bool false)) :=
  ⟨(managed_layer_archived_overrides_visible
      ⟨"layer1", [("visible", JsonVal.bool false)]⟩ false (some false) rfl rfl).1,
   (managed_layer_archived_overrides_visible
      ⟨"layer1", [("visible", JsonVal.bool false)]⟩ false (some false) rfl rfl).2
      [("visible", JsonVal.bool false), ("name", JsonVal.str "layer1")] rfl⟩
